import Mathlib

/-!
Verification of the LMS backend video-ingestion, streaming and realtime
subsystems, shallowly embedded from src/backend/app.  Identifiers mirror
the Python source names where Lean allows it.
-/

set_option maxRecDepth 100000

namespace Course

/-! ### Content metadata store (app/db/models/content.py, app/tasks/video.py) -/

/-- The JSON blob written by update_content_metadata (video.py lines 236-241):
keys processed_urls, thumbnail_url, video_metadata, processing_status.
video_metadata (duration, width, height, fps, codec, bitrate) is kept as an
association list of numeric fields. -/
structure ContentMetadata where
  processed_urls : List (String × String)
  thumbnail_url : String
  video_metadata : List (String × Nat)
  processing_status : String
deriving DecidableEq

/-- A course_contents row, restricted to the columns the claims touch.
content_metadata is a nullable JSONB column, hence Option. -/
structure CourseContent where
  id : Nat
  course_id : Nat
  content_metadata : Option ContentMetadata
deriving DecidableEq

/-- The WHERE clause CourseContent.id == content_id of the UPDATE in
update_content_metadata (video.py line 234).  content_id is an optional task
argument; when it is Python None, SQLAlchemy renders the comparison as
id IS NULL, and the non-nullable primary key matches no row. -/
def matchesContentId : Option Nat → Nat → Bool
  | some c, rid => rid == c
  | none, _ => false

/-- The values(content_metadata = ...) payload of the UPDATE in
update_content_metadata (video.py lines 236-241): the whole blob built from
one call, with processing_status hard-coded to completed. -/
def publishedBlob (output_urls : List (String × String))
    (thumbnail_url : String) (metadata : List (String × Nat)) :
    ContentMetadata :=
  { processed_urls := output_urls
  , thumbnail_url := thumbnail_url
  , video_metadata := metadata
  , processing_status := "completed" }

/-- update_content_metadata (video.py lines 222-250): a single UPDATE that
overwrites the whole content_metadata blob of every row matched by the WHERE
clause with the blob built from this call. -/
def update_content_metadata (content_id : Option Nat)
    (output_urls : List (String × String)) (thumbnail_url : String)
    (metadata : List (String × Nat)) (db : List CourseContent) :
    List CourseContent :=
  db.map fun r =>
    if matchesContentId content_id r.id then
      { r with content_metadata := some (publishedBlob output_urls thumbnail_url metadata) }
    else r

/-- One entry of the quality ladder (video.py lines 56-61). -/
structure Quality where
  name : String
  height : Nat
  bitrate : String
deriving DecidableEq

/-- The fixed quality ladder of process_video_task (video.py lines 56-61). -/
def qualities : List Quality :=
  [ { name := "1080p", height := 1080, bitrate := "5000k" }
  , { name := "720p", height := 720, bitrate := "2500k" }
  , { name := "480p", height := 480, bitrate := "1000k" }
  , { name := "360p", height := 360, bitrate := "500k" } ]

/-- The success path of process_video_task (video.py lines 45-108): one rung
per ladder entry is transcoded and uploaded (the object store is abstracted
as the function upload from destination path to durable URL, mirroring
StorageService.upload_file), a thumbnail is uploaded, and the metadata blob
is published via update_content_metadata.  Returns the updated database
together with the output_urls dict accumulated by the loop. -/
def process_video_success (upload : String → String) (course_id : String)
    (content_id : Option Nat) (video_metadata : List (String × Nat))
    (db : List CourseContent) :
    List CourseContent × List (String × String) :=
  let output_urls := qualities.map fun q =>
    (q.name, upload ("content/" ++ course_id ++ "/video/" ++ q.name))
  let thumbnail_url := upload ("content/" ++ course_id ++ "/thumbnails")
  (update_content_metadata content_id output_urls thumbnail_url video_metadata db,
   output_urls)

/-- The transcoding job payload enqueued by the REST content-upload ingress
(upload.py line 121): process_video_task.delay(url, str(course_id)) passes no
third argument, so content_id keeps its Python default None. -/
structure VideoJob where
  video_url : String
  course_id : String
  content_id : Option Nat
deriving DecidableEq

/-- upload_content (upload.py lines 117-129) enqueues the main transcoding
job with only video_url and course_id. -/
def upload_content_job (url course_id : String) : VideoJob :=
  { video_url := url, course_id := course_id, content_id := none }

/-! ### Range streaming (app/api/v1/endpoints/streaming.py)

The handler manipulates the Range header with Python string primitives:
range_header.replace followed by split and int (streaming.py lines 113-115).
The Lean String builtins do not reduce inside the kernel, so those Python
primitives are embedded as structural functions over the character list of
the header string. -/

/-- Python range_header.replace of the literal pattern bytes= by the empty
string (streaming.py line 113): every occurrence of the six characters
b y t e s = is deleted, scanning left to right, non-overlapping. -/
def stripBytesEq : List Char → List Char
  | 'b' :: 'y' :: 't' :: 'e' :: 's' :: '=' :: rest => stripBytesEq rest
  | c :: rest => c :: stripBytesEq rest
  | [] => []

/-- Python split on the single-character separator used at streaming.py line
113: accumulates the current field and starts a new one at every dash. -/
def splitDashAux : List Char → List Char → List (List Char)
  | [], acc => [acc.reverse]
  | '-' :: rest, acc => acc.reverse :: splitDashAux rest []
  | c :: rest, acc => splitDashAux rest (c :: acc)

def pySplitDash (cs : List Char) : List (List Char) :=
  splitDashAux cs []

/-- Python int() on a field of the Range header: succeeds on a non-empty
all-digit string, any other input raises (modelled as none). -/
def parseNatAux : List Char → Nat → Option Nat
  | [], acc => some acc
  | c :: rest, acc =>
    if c.isDigit then parseNatAux rest (acc * 10 + (c.toNat - 48)) else none

def pyInt? : List Char → Option Nat
  | [] => none
  | cs => parseNatAux cs 0

/-- The header parsing of stream_with_range (streaming.py lines 113-115):
strip bytes=, split on the dash, then
start = int(first) if first else 0 and end = int(second) if second else None.
Accessing the second field of a dash-less header raises IndexError, and a
non-numeric field raises ValueError; both are modelled as none. -/
def parseRangeHeader (s : String) : Option (Nat × Option Nat) :=
  match pySplitDash (stripBytesEq s.data) with
  | a :: b :: _ =>
    match (if a.isEmpty then some 0 else pyInt? a) with
    | none => none
    | some start =>
      match (if b.isEmpty then some none else (pyInt? b).map some) with
      | none => none
      | some e => some (start, e)
  | _ => none

/-- The 206 response assembled by stream_with_range (streaming.py lines
140-150), restricted to the fields the spec talks about.  The body is the
byte sequence proxied from the ranged upstream fetch. -/
structure RangeResponse where
  status : Nat
  content_range : String
  content_length : Nat
  body : List Nat
deriving DecidableEq

/-- stream_with_range (streaming.py lines 107-150).  The stored object is the
byte list video; metadata_file_size models metadata.get of file_size, and the
falsy check at line 119 sends Python None or 0 to a HEAD request whose
content-length is the object size.  The upstream ranged GET at line 132 is a
compliant object store serving bytes start..end of the object.  Parse and
HTTP failures are modelled as none. -/
def stream_with_range (video : List Nat) (range_header : String)
    (metadata_file_size : Option Nat) : Option RangeResponse :=
  match parseRangeHeader range_header with
  | none => none
  | some (start, e?) =>
    let file_size :=
      match metadata_file_size with
      | some n => if n = 0 then video.length else n
      | none => video.length
    let e := e?.getD (file_size - 1)
    some { status := 206
         , content_range :=
             "bytes " ++ toString start ++ "-" ++ toString e ++ "/" ++ toString file_size
         , content_length := e - start + 1
         , body := (video.drop start).take (e - start + 1) }

/-- stream_full_video (streaming.py lines 159-183): a plain 200 proxy of the
whole object. -/
def stream_full_video (video : List Nat) : List Nat :=
  video

/-- Python truthiness-driven x or y over dict.get results (streaming.py
lines 86-91): None and the empty string are falsy. -/
def pyOrStr (a : Option String) (b : Option String) : Option String :=
  match a with
  | some s => if s = "" then b else some s
  | none => b

/-- The rendition resolution of stream_video (streaming.py lines 84-92):
processed_urls.get of 720p or 1080p or 480p or 360p or the first value of the
dict.  The final fallback raises IndexError on an empty dict, modelled as
none. -/
def select_video_url (processed_urls : List (String × String)) :
    Option String :=
  pyOrStr (processed_urls.lookup "720p")
    (pyOrStr (processed_urls.lookup "1080p")
      (pyOrStr (processed_urls.lookup "480p")
        (pyOrStr (processed_urls.lookup "360p")
          ((processed_urls.map Prod.snd).head?))))

/-- The order in which stream_video tries the quality rungs, written as the
spec phrases it (prefer 720p, then a fixed fallback order), to be compared
with the or-chain in the code.  A rung counts as available when its URL is
present and non-empty (Python truthiness). -/
def selection_order : List String :=
  ["720p", "1080p", "480p", "360p"]

def select_by_order (processed_urls : List (String × String)) :
    Option String :=
  match selection_order.filterMap (fun q =>
      match processed_urls.lookup q with
      | some s => if s = "" then none else some s
      | none => none) with
  | s :: _ => some s
  | [] => (processed_urls.map Prod.snd).head?

/-! ### Realtime connection registry (websocket.py lines 35-105)

Connections are identified by numbers; the two registry maps are Python
dicts from id to list of connections, embedded as insertion-ordered
association lists. -/

abbrev Buckets := List (Nat × List Nat)

/-- Append a connection to the bucket of a key, creating the bucket when
absent (the connect and add_course_connection pattern, websocket.py lines
44-50 and 89-93). -/
def bucketAdd (m : Buckets) (k : Nat) (w : Nat) : Buckets :=
  if m.any (fun kb => kb.1 == k) then
    m.map fun kb => if kb.1 == k then (kb.1, kb.2 ++ [w]) else kb
  else m ++ [(k, [w])]

/-- The removal pattern of disconnect and remove_course_connection
(websocket.py lines 52-58 and 95-101): when the key is present, remove the
first occurrence of the connection from its bucket, then delete the bucket
when it is empty. -/
def bucketRemove (m : Buckets) (k : Nat) (w : Nat) : Buckets :=
  m.filterMap fun kb =>
    if kb.1 == k then
      let b := kb.2.erase w
      if b.isEmpty then none else some (kb.1, b)
    else some kb

/-- ConnectionManager state (websocket.py lines 38-42): user buckets and
course buckets. -/
structure ConnectionManager where
  active_connections : Buckets
  course_connections : Buckets
deriving DecidableEq

/-- ConnectionManager.connect (websocket.py lines 44-50), minus the socket
accept. -/
def ConnectionManager.connect (mgr : ConnectionManager) (w : Nat)
    (user_id : Nat) : ConnectionManager :=
  { mgr with active_connections := bucketAdd mgr.active_connections user_id w }

/-- ConnectionManager.disconnect (websocket.py lines 52-58): touches only the
user buckets. -/
def ConnectionManager.disconnect (mgr : ConnectionManager) (w : Nat)
    (user_id : Nat) : ConnectionManager :=
  { mgr with active_connections := bucketRemove mgr.active_connections user_id w }

/-- ConnectionManager.add_course_connection (websocket.py lines 89-93). -/
def ConnectionManager.add_course_connection (mgr : ConnectionManager)
    (w : Nat) (course_id : Nat) : ConnectionManager :=
  { mgr with course_connections := bucketAdd mgr.course_connections course_id w }

/-- ConnectionManager.remove_course_connection (websocket.py lines
95-101). -/
def ConnectionManager.remove_course_connection (mgr : ConnectionManager)
    (w : Nat) (course_id : Nat) : ConnectionManager :=
  { mgr with course_connections := bucketRemove mgr.course_connections course_id w }

/-- The cleanup run when the notifications channel closes, normally or
abruptly (the finally block at websocket.py line 232): only
manager.disconnect is called. -/
def notifications_cleanup (mgr : ConnectionManager) (w : Nat)
    (user_id : Nat) : ConnectionManager :=
  mgr.disconnect w user_id

/-- The cleanup run when the progress channel closes (websocket.py lines
391-392): manager.disconnect then manager.remove_course_connection for the
one course of the channel. -/
def progress_cleanup (mgr : ConnectionManager) (w : Nat) (user_id : Nat)
    (course_id : Nat) : ConnectionManager :=
  (mgr.disconnect w user_id).remove_course_connection w course_id

/-- Whether a connection sits in any bucket of a registry map. -/
def inAnyBucket (m : Buckets) (w : Nat) : Bool :=
  m.any fun kb => kb.2.contains w

/-- The fan-out loop of send_personal_message (websocket.py lines 60-68)
under CPython list-iterator semantics: the for statement walks the bucket by
index while the except branch removes the failed connection from the same
list, which shifts the following element into the freed slot so that it is
retained but never visited.  alive tells whether send_text succeeds for a
connection.  Returns the bucket as the loop leaves it, paired with the list
of connections that received the message, in delivery order.  (The removal
at line 68 is list.remove, first occurrence by equality; on buckets of
distinct connections this is the element just visited, and when equal values
repeat the value-level result is unchanged.) -/
def send_personal_loop (alive : Nat → Bool) : List Nat → List Nat × List Nat
  | [] => ([], [])
  | [c] => if alive c then ([c], [c]) else ([], [])
  | c :: skipped :: rest =>
    if alive c then
      let r := send_personal_loop alive (skipped :: rest)
      (c :: r.1, c :: r.2)
    else
      let r := send_personal_loop alive rest
      (skipped :: r.1, r.2)

/-- ConnectionManager.send_personal_message (websocket.py lines 60-68): look
up the user bucket and run the fan-out loop over it; a missing bucket
delivers nothing.  No exception escapes: the bare except swallows every
delivery failure, so the result is always returned to the caller. -/
def send_personal_message (alive : Nat → Bool) (mgr : ConnectionManager)
    (user_id : Nat) : ConnectionManager × List Nat :=
  match mgr.active_connections.lookup user_id with
  | none => (mgr, [])
  | some bucket =>
    let r := send_personal_loop alive bucket
    ({ mgr with active_connections :=
        mgr.active_connections.map fun kb =>
          if kb.1 == user_id then (kb.1, r.1) else kb },
     r.2)

/-! ### Progress records and the two update ingress paths
(app/db/models/progress.py, progress.py, websocket.py) -/

/-- A course_progress row, restricted to the columns the claims touch. -/
structure CourseProgress where
  user_id : Nat
  course_id : Nat
  content_id : Nat
  completed : Bool
  progress_percentage : Int
  last_position : Option Int
deriving DecidableEq

/-- The realtime progress_update handler on an existing record
(websocket.py lines 337-341): overwrite percentage and last_position, then
set completed to true when the percentage reaches 100.  completed is never
written otherwise, so it can only go from false to true here. -/
def wsApplyExisting (p : CourseProgress) (pct : Int)
    (last_position : Option Int) : CourseProgress :=
  let p := { p with progress_percentage := pct, last_position := last_position }
  if pct ≥ 100 then { p with completed := true } else p

/-- The realtime progress_update handler when no record exists
(websocket.py lines 343-351). -/
def wsCreate (user_id course_id content_id : Nat) (pct : Int)
    (last_position : Option Int) : CourseProgress :=
  { user_id := user_id, course_id := course_id, content_id := content_id
  , completed := decide (pct ≥ 100), progress_percentage := pct
  , last_position := last_position }

/-- The progress_updated event broadcast to the course subscribers
(websocket.py lines 356-364), restricted to the fields the claims touch.
Its completed field is computed afresh from the incoming percentage at line
362, not read back from the persisted record. -/
structure ProgressUpdatedEvent where
  user_id : Nat
  course_id : Nat
  content_id : Nat
  progress_percentage : Int
  completed : Bool
deriving DecidableEq

/-- One realtime progress_update message applied by websocket_progress
(websocket.py lines 319-367): persist through the existing or the create
branch, then build the broadcast event. -/
def wsProgressUpdate (existing : Option CourseProgress)
    (user_id course_id content_id : Nat) (pct : Int)
    (last_position : Option Int) : CourseProgress × ProgressUpdatedEvent :=
  let record :=
    match existing with
    | some p => wsApplyExisting p pct last_position
    | none => wsCreate user_id course_id content_id pct last_position
  (record,
   { user_id := user_id, course_id := course_id, content_id := content_id
   , progress_percentage := pct, completed := decide (pct ≥ 100) })

/-- The ProgressCreate payload of the REST ingress (schemas/progress.py
lines 12-28).  course_id, content_id and progress_percentage are required;
last_position and completed are optional, and model_dump(exclude_unset=True)
drops the ones the client did not supply, so each optional field is an outer
Option (none = absent from the request). -/
structure ProgressCreate where
  course_id : Nat
  content_id : Nat
  progress_percentage : Int
  last_position : Option (Option Int)
  completed : Option Bool
deriving DecidableEq

/-- The update branch of the REST create_progress endpoint (progress.py
lines 76-87): setattr for every field present in
model_dump(exclude_unset=True), then the auto-complete check sets completed
to true when the resulting percentage reaches 100. -/
def restApplyExisting (p : CourseProgress) (d : ProgressCreate) :
    CourseProgress :=
  let p : CourseProgress :=
    { p with course_id := d.course_id, content_id := d.content_id
           , progress_percentage := d.progress_percentage }
  let p : CourseProgress :=
    match d.last_position with
    | some v => { p with last_position := v }
    | none => p
  let p : CourseProgress :=
    match d.completed with
    | some b => { p with completed := b }
    | none => p
  if p.progress_percentage ≥ 100 then { p with completed := true } else p

/-! ### Task queue retry driver (app/tasks/video.py lines 35 and 110-112)

Modelled from the spec: the Celery retry machinery is an external
collaborator, not part of src/.  Spec section 4.1 fixes its contract: on an
unhandled failure the job is re-attempted after the countdown delay until
the retry count exceeds max_retries, after which it is exhausted and not
retried again.  The repository contributes the parameters: the decorator
max_retries=3 (video.py line 35) and self.retry(countdown=60, max_retries=3)
(video.py line 112). -/

/-- Outcome of driving one job to success or exhaustion: how many times the
body ran, the delay taken before each re-attempt, and whether the retry
budget was exhausted. -/
structure RetryOutcome where
  attempts : Nat
  delays : List Nat
  exhausted : Bool
deriving DecidableEq

/-- Modelled from the spec: the retry driver.  body i is whether attempt i
succeeds; remaining is the retry budget left. -/
def retryLoop (countdown : Nat) (body : Nat → Bool) :
    Nat → Nat → RetryOutcome
  | i, remaining =>
    if body i then { attempts := 1, delays := [], exhausted := false }
    else
      match remaining with
      | 0 => { attempts := 1, delays := [], exhausted := true }
      | r + 1 =>
        let rest := retryLoop countdown body (i + 1) r
        { attempts := rest.attempts + 1
        , delays := countdown :: rest.delays
        , exhausted := rest.exhausted }

/-- process_video_task under the queue: max_retries = 3 and countdown = 60
as configured at video.py lines 35 and 112. -/
def run_process_video (body : Nat → Bool) : RetryOutcome :=
  retryLoop 60 body 0 3

/-! ### Theorems for the claims -/

/-- C1: for every valid uploaded video, after a successful run of the
transcoding pipeline task addressed at an existing content record, that
record carries a metadata blob whose processed_urls has exactly the four
quality labels 1080p, 720p, 480p and 360p, each mapped to a URL, and whose
processing_status is completed. -/
theorem pipeline_publishes_four_rungs_completed
    (upload : String → String) (course_id : String)
    (vm : List (String × Nat)) (db : List CourseContent) (cid : Nat)
    (r : CourseContent) (hmem : r ∈ db) (hid : r.id = cid) :
    ∃ r' ∈ (process_video_success upload course_id (some cid) vm db).1,
      r'.id = cid ∧
      ∃ m, r'.content_metadata = some m ∧
        m.processed_urls.map Prod.fst = ["1080p", "720p", "480p", "360p"] ∧
        (∀ q ∈ ["1080p", "720p", "480p", "360p"],
          (m.processed_urls.lookup q).isSome = true) ∧
        m.processing_status = "completed" := by
  have hmatch : matchesContentId (some cid) r.id = true := by
    simp [matchesContentId, hid]
  simp only [process_video_success, update_content_metadata]
  refine ⟨_, List.mem_map_of_mem _ hmem, ?_⟩
  rw [hmatch]
  refine ⟨hid, _, rfl, ?_, ?_, rfl⟩
  · simp [publishedBlob, qualities]
  · intro q hq
    simp [qualities, List.lookup] at hq ⊢
    rcases hq with h | h | h | h <;> simp [h]

/-- C2: the publish step is last-write-wins on the whole metadata blob: after
two update_content_metadata calls for the same content id, every matching
record holds exactly the blob built from the second call, no merge of the
two. -/
theorem publish_last_write_wins
    (db : List CourseContent) (cid : Nat)
    (u1 u2 : List (String × String)) (t1 t2 : String)
    (m1 m2 : List (String × Nat)) (r' : CourseContent)
    (hmem : r' ∈ update_content_metadata (some cid) u2 t2 m2
        (update_content_metadata (some cid) u1 t1 m1 db))
    (hid : r'.id = cid) :
    r'.content_metadata = some (publishedBlob u2 t2 m2) := by
  rcases List.mem_map.1 hmem with ⟨r1, _, rfl⟩
  have hid1 : r1.id = cid := by
    cases h : matchesContentId (some cid) r1.id <;> simpa [h] using hid
  have hm : matchesContentId (some cid) r1.id = true := by
    simp [matchesContentId, hid1]
  simp [hm]

/-- C3: once completed is true for a (user, content) pair, a later update
with a percentage below 100 leaves completed true and overwrites the
percentage, both through the realtime progress_update handler and through
the REST ingress (whose payload, per the progress-update contract, carries
percentage and position only, so its optional completed field is unset). -/
theorem progress_completion_sticky
    (p : CourseProgress) (pct : Int) (lp : Option Int) (d : ProgressCreate)
    (hp : p.completed = true) (hpct : pct < 100)
    (hd : d.completed = none) (hdp : d.progress_percentage < 100) :
    ((wsApplyExisting p pct lp).completed = true ∧
      (wsApplyExisting p pct lp).progress_percentage = pct) ∧
    ((restApplyExisting p d).completed = true ∧
      (restApplyExisting p d).progress_percentage = d.progress_percentage) := by
  have h1 : ¬ pct ≥ 100 := by omega
  have h2 : ¬ d.progress_percentage ≥ 100 := by omega
  cases hlp : d.last_position <;>
    simp [wsApplyExisting, restApplyExisting, hd, hlp, h1, h2, hp]

/-- C4: closing a notifications channel (normally or abruptly) runs only
manager.disconnect, which touches the user buckets alone; a connection that
had subscribed to a course stays in that course bucket afterwards, against
the claim that unregistering removes it from every course bucket.  Concrete
run: connection 7 of user 1, subscribed to course 2. -/
theorem notifications_close_leaves_course_bucket :
    (notifications_cleanup
        (((ConnectionManager.mk [] []).connect 7 1).add_course_connection 7 2)
        7 1).active_connections = [] ∧
    (notifications_cleanup
        (((ConnectionManager.mk [] []).connect 7 1).add_course_connection 7 2)
        7 1).course_connections = [(2, [7])] ∧
    inAnyBucket
      (notifications_cleanup
        (((ConnectionManager.mk [] []).connect 7 1).add_course_connection 7 2)
        7 1).course_connections 7 = true := by
  decide

/-- C5: send_to_user with bucket [0, 1] where connection 0 is dead and
connection 1 is live removes only the dead connection and raises nothing,
but delivers the message to nobody: the live connection 1 is shifted into
the freed slot by list.remove and skipped by the iterator, against the claim
that every other connection still receives the message. -/
theorem send_to_user_skips_connection_after_dead :
    ((fun n => decide (n ≠ 0)) 1 = true) ∧
    send_personal_message (fun n => decide (n ≠ 0))
        { active_connections := [(3, [0, 1])], course_connections := [] } 3 =
      ({ active_connections := [(3, [1])], course_connections := [] }, []) := by
  decide

/-- C6, counterexample: with processed_urls holding 1080p and 480p but no
720p, the endpoint serves the 1080p URL although the lower rung 480p is
available, against the claim that it never selects a higher rung while a
lower one below 720p is available. -/
theorem stream_prefers_1080p_over_available_480p :
    ([("1080p", "url-hd"), ("480p", "url-sd")].lookup "720p" = none) ∧
    ([("1080p", "url-hd"), ("480p", "url-sd")].lookup "480p" = some "url-sd") ∧
    select_video_url [("1080p", "url-hd"), ("480p", "url-sd")] =
      some "url-hd" ∧
    "url-hd" ≠ "url-sd" := by
  decide

/-- C6, amended: the streaming endpoint resolves the rendition by the fixed
preference order 720p, 1080p, 480p, 360p (skipping absent or empty entries),
and otherwise falls back to the first value of the mapping; in particular
1080p is preferred over the lower rungs whenever 720p is unavailable. -/
theorem select_video_url_follows_fixed_order
    (urls : List (String × String)) :
    select_video_url urls = select_by_order urls := by
  rcases h720 : urls.lookup "720p" with _ | s720 <;>
    rcases h1080 : urls.lookup "1080p" with _ | s1080 <;>
      rcases h480 : urls.lookup "480p" with _ | s480 <;>
        rcases h360 : urls.lookup "360p" with _ | s360 <;>
          simp [select_video_url, select_by_order, selection_order, pyOrStr,
            h720, h1080, h480, h360, List.filterMap_cons] <;>
          split_ifs <;> simp_all

/-- C7: a ranged fetch of a 1000-byte object with header
Range: bytes=100-199 yields status 206, Content-Range bytes 100-199/1000,
Content-Length 100, and a body byte-identical to the slice [100:200] of a
full fetch of the object. -/
theorem range_request_round_trip (video : List Nat)
    (hlen : video.length = 1000) :
    stream_with_range video "bytes=100-199" none =
      some { status := 206
           , content_range := "bytes 100-199/1000"
           , content_length := 100
           , body := ((stream_full_video video).drop 100).take 100 } := by
  have hparse : parseRangeHeader "bytes=100-199" = some (100, some 199) := by
    decide
  simp [stream_with_range, hparse, hlen, stream_full_video]
  decide

/-- C8: a transcoding job whose body always fails is attempted exactly
max_retries + 1 = 4 times before being marked exhausted, and every
inter-attempt delay is the configured 60-second backoff, hence at least
60 seconds. -/
theorem retry_cap_four_attempts (body : Nat → Bool)
    (hfail : ∀ i, body i = false) :
    (run_process_video body).attempts = 4 ∧
    (run_process_video body).exhausted = true ∧
    (run_process_video body).delays = [60, 60, 60] ∧
    ∀ d ∈ (run_process_video body).delays, 60 ≤ d := by
  simp [run_process_video, retryLoop, hfail]

/-- C9: on a realtime progress update below 100 applied to a record whose
completed flag is already true, the persisted record keeps completed true
(and takes the new percentage) while the broadcast progress_updated event
reports completed false, because the event recomputes the flag from the
incoming percentage instead of reading the record. -/
theorem broadcast_completed_recomputed
    (p : CourseProgress) (u c ct : Nat) (pct : Int) (lp : Option Int)
    (hp : p.completed = true) (hpct : pct < 100) :
    (wsProgressUpdate (some p) u c ct pct lp).1.completed = true ∧
    (wsProgressUpdate (some p) u c ct pct lp).1.progress_percentage = pct ∧
    (wsProgressUpdate (some p) u c ct pct lp).2.completed = false := by
  have h1 : ¬ pct ≥ 100 := by omega
  simp [wsProgressUpdate, wsApplyExisting, hp, h1]

/-- C10: the REST content-upload ingress enqueues the transcoding job with
content_id left at its None default, so the publish step's UPDATE matches no
row and the database is returned unchanged: no content record ever receives
a completed metadata blob through this path. -/
theorem upload_enqueued_job_publishes_nothing
    (url course : String) (upload : String → String)
    (vm : List (String × Nat)) (db : List CourseContent) :
    (process_video_success upload course
        (upload_content_job url course).content_id vm db).1 = db := by
  simp [process_video_success, upload_content_job, update_content_metadata,
    matchesContentId]

/-! ### Witnesses -/

/-- Witness for C1 at a concrete database. -/
theorem pipeline_publishes_four_rungs_completed_witness :
    ({ id := 1, course_id := 9, content_metadata := none } : CourseContent) ∈
        [({ id := 1, course_id := 9, content_metadata := none } : CourseContent)] ∧
    (({ id := 1, course_id := 9, content_metadata := none } : CourseContent).id = 1) ∧
    ∃ r' ∈ (process_video_success id "c" (some 1) []
        [{ id := 1, course_id := 9, content_metadata := none }]).1,
      r'.id = 1 ∧
      ∃ m, r'.content_metadata = some m ∧
        m.processed_urls.map Prod.fst = ["1080p", "720p", "480p", "360p"] ∧
        (∀ q ∈ ["1080p", "720p", "480p", "360p"],
          (m.processed_urls.lookup q).isSome = true) ∧
        m.processing_status = "completed" :=
  ⟨by decide, by decide,
    pipeline_publishes_four_rungs_completed id "c" []
      [{ id := 1, course_id := 9, content_metadata := none }] 1
      { id := 1, course_id := 9, content_metadata := none }
      (by decide) (by decide)⟩

/-- Witness for C2 at a concrete database and two concrete payloads. -/
theorem publish_last_write_wins_witness :
    ({ id := 1, course_id := 9
     , content_metadata := some (publishedBlob [("720p", "b")] "tb" []) } :
        CourseContent) ∈
      update_content_metadata (some 1) [("720p", "b")] "tb" []
        (update_content_metadata (some 1) [("720p", "a")] "ta" []
          [{ id := 1, course_id := 9, content_metadata := none }]) ∧
    ({ id := 1, course_id := 9
     , content_metadata := some (publishedBlob [("720p", "b")] "tb" []) } :
        CourseContent).content_metadata = some (publishedBlob [("720p", "b")] "tb" []) :=
  ⟨by decide,
    publish_last_write_wins
      [{ id := 1, course_id := 9, content_metadata := none }] 1
      [("720p", "a")] [("720p", "b")] "ta" "tb" [] [] _ (by decide) (by decide)⟩

/-- Witness for C3 at a concrete record and concrete payloads with
percentage 50. -/
theorem progress_completion_sticky_witness :
    (({ user_id := 1, course_id := 2, content_id := 3, completed := true
      , progress_percentage := 100, last_position := none } :
        CourseProgress).completed = true) ∧
    ((50 : Int) < 100) ∧
    ((wsApplyExisting
        { user_id := 1, course_id := 2, content_id := 3, completed := true
        , progress_percentage := 100, last_position := none } 50 none).completed = true ∧
      (wsApplyExisting
        { user_id := 1, course_id := 2, content_id := 3, completed := true
        , progress_percentage := 100, last_position := none } 50 none).progress_percentage = 50) ∧
    ((restApplyExisting
        { user_id := 1, course_id := 2, content_id := 3, completed := true
        , progress_percentage := 100, last_position := none }
        { course_id := 2, content_id := 3, progress_percentage := 50
        , last_position := none, completed := none }).completed = true ∧
      (restApplyExisting
        { user_id := 1, course_id := 2, content_id := 3, completed := true
        , progress_percentage := 100, last_position := none }
        { course_id := 2, content_id := 3, progress_percentage := 50
        , last_position := none, completed := none }).progress_percentage =
        ({ course_id := 2, content_id := 3, progress_percentage := 50
         , last_position := none, completed := none } : ProgressCreate).progress_percentage) :=
  ⟨rfl, by decide,
    progress_completion_sticky
      { user_id := 1, course_id := 2, content_id := 3, completed := true
      , progress_percentage := 100, last_position := none } 50 none
      { course_id := 2, content_id := 3, progress_percentage := 50
      , last_position := none, completed := none }
      rfl (by decide) rfl (by decide)⟩

/-- Witness for C7 at the concrete 1000-byte object 0,1,...,999. -/
theorem range_request_round_trip_witness :
    (List.range 1000).length = 1000 ∧
    stream_with_range (List.range 1000) "bytes=100-199" none =
      some { status := 206
           , content_range := "bytes 100-199/1000"
           , content_length := 100
           , body := ((stream_full_video (List.range 1000)).drop 100).take 100 } :=
  ⟨by simp, range_request_round_trip (List.range 1000) (by simp)⟩

/-- Witness for C8 at the concrete always-failing body. -/
theorem retry_cap_four_attempts_witness :
    (∀ i, (fun _ : Nat => false) i = false) ∧
    (run_process_video fun _ => false).attempts = 4 ∧
    (run_process_video fun _ => false).exhausted = true ∧
    (run_process_video fun _ => false).delays = [60, 60, 60] ∧
    ∀ d ∈ (run_process_video fun _ => false).delays, 60 ≤ d :=
  ⟨fun _ => rfl, retry_cap_four_attempts (fun _ => false) fun _ => rfl⟩

/-- Witness for C9 at a concrete completed record and percentage 50. -/
theorem broadcast_completed_recomputed_witness :
    (({ user_id := 1, course_id := 2, content_id := 3, completed := true
      , progress_percentage := 100, last_position := none } :
        CourseProgress).completed = true) ∧
    ((50 : Int) < 100) ∧
    ((wsProgressUpdate
        (some { user_id := 1, course_id := 2, content_id := 3, completed := true
              , progress_percentage := 100, last_position := none })
        1 2 3 50 none).1.completed = true ∧
      (wsProgressUpdate
        (some { user_id := 1, course_id := 2, content_id := 3, completed := true
              , progress_percentage := 100, last_position := none })
        1 2 3 50 none).1.progress_percentage = 50 ∧
      (wsProgressUpdate
        (some { user_id := 1, course_id := 2, content_id := 3, completed := true
              , progress_percentage := 100, last_position := none })
        1 2 3 50 none).2.completed = false) :=
  ⟨rfl, by decide,
    broadcast_completed_recomputed
      { user_id := 1, course_id := 2, content_id := 3, completed := true
      , progress_percentage := 100, last_position := none }
      1 2 3 50 none rfl (by decide)⟩

end Course
